import Mathlib

/-!
Shallow embedding of the vkclient crate (Mnwa/vkclient): the long-poll
subscription loop (src/longpoll.rs), the content-negotiated decode pipeline
(src/inner.rs), the untagged response envelope (src/vkapi.rs) and the List
serialization helper (src/structs.rs), together with theorems settling the
specification claims about them.
-/

namespace Vkclient

/-- Decoded wire payloads (the value space serde_json deserializers see).
Numbers are modelled as integers; the payloads relevant here are integers
and strings. -/
inductive JsonValue where
  | null
  | bool (b : Bool)
  | num (n : Int)
  | str (s : String)
  | arr (elems : List JsonValue)
  | obj (fields : List (String × JsonValue))
deriving Repr

/-- vkapi.rs:238-242. VkError is the business-logic error body:
error_code is an i16, error_msg a string. -/
structure VkError where
  error_code : Int
  error_msg : String
deriving Repr, DecidableEq

/-- longpoll.rs:194-204. LongPollError: failed is a usize; ts, min_version
and max_version are optional (ts decoded through
deserialize_usize_or_string_option, hence a string when present). -/
structure LongPollError where
  failed : Nat
  ts : Option String
  min_version : Option Nat
  max_version : Option Nat
deriving Repr, DecidableEq

/-- vkapi.rs:206-213. ResponseDeserialize error kinds: a JSON parse error,
a MsgPack parse error, or BadEncoding for an unusable Content-Type. The
underlying library errors are modelled as strings. -/
inductive ResponseDeserialize where
  | Json (e : String)
  | MsgPack (e : String)
  | BadEncoding
deriving Repr, DecidableEq

/-- vkapi.rs:176-185. VkApiError variants. Payloads of the transport-level
variants are modelled as strings; the source IO variant is named Io here. -/
inductive VkApiError where
  | Request (e : String)
  | RequestSerialize (e : String)
  | ResponseDeserialize (e : ResponseDeserialize)
  | Vk (e : VkError)
  | Io (e : String)
  | Http (e : String)
  | LongPoll (e : LongPollError)
deriving Repr, DecidableEq

/-- longpoll.rs:186-190. A successful long-poll chunk: the replacement ts
and the ordered updates. -/
structure LongPollSuccess (R : Type) where
  ts : String
  updates : List R
deriving Repr, DecidableEq

/-- An error is the recoverable long-poll kind exactly when it is
VkApiError::LongPoll carrying ts = Some, the shape matched by the first arm
of the match in VkLongPoll::subscribe (longpoll.rs:66). -/
def VkApiError.isRecoverableLongPoll : VkApiError → Bool
  | .LongPoll le => le.ts.isSome
  | _ => false

/-- The three-way classification performed by the match in
VkLongPoll::subscribe (longpoll.rs:65-79), with the arms in source order:
Err(LongPoll) with ts = Some is recoverable, Ok is an updates chunk, and
any other Err is fatal. -/
inductive TickClass (I : Type) where
  | recoverable (ts : String)
  | updates (ts : String) (items : List I)
  | fatal (e : VkApiError)
deriving Repr

/-- longpoll.rs:65-79, the match inside the stream loop, arm for arm. -/
def classifyTick {I : Type} : Except VkApiError (LongPollSuccess I) → TickClass I
  | .error (.LongPoll ⟨_, some ts, _, _⟩) => .recoverable ts
  | .ok s => .updates s.ts s.updates
  | .error e => .fatal e

/-- The stream produced by VkLongPoll::subscribe (longpoll.rs:57-82),
run for at most fuel ticks. The environment is an oracle giving the result
of subscribe_once_with_client for the tick index and the ts the request
carries at that tick. Each recoverable outcome replaces ts and emits
nothing; each updates outcome replaces ts and emits the updates in order;
a fatal outcome emits the error and stops the loop. -/
def subscribeRun {I : Type}
    (oracle : Nat → String → Except VkApiError (LongPollSuccess I)) :
    Nat → Nat → String → List (Except VkApiError I)
  | 0, _, _ => []
  | fuel + 1, n, ts =>
    match classifyTick (oracle n ts) with
    | .recoverable ts2 => subscribeRun oracle fuel (n + 1) ts2
    | .updates ts2 items => items.map Except.ok ++ subscribeRun oracle fuel (n + 1) ts2
    | .fatal e => [Except.error e]

/-- The number of polls (subscribe_once_with_client calls) the loop of
subscribeRun issues within fuel ticks: every tick entered issues exactly
one poll, and a fatal outcome stops the loop. -/
def subscribePolls {I : Type}
    (oracle : Nat → String → Except VkApiError (LongPollSuccess I)) :
    Nat → Nat → String → Nat
  | 0, _, _ => 0
  | fuel + 1, n, ts =>
    match classifyTick (oracle n ts) with
    | .recoverable ts2 => 1 + subscribePolls oracle fuel (n + 1) ts2
    | .updates ts2 _ => 1 + subscribePolls oracle fuel (n + 1) ts2
    | .fatal _ => 1

/-- First-match field lookup in a decoded JSON map. -/
def lookupField (fields : List (String × JsonValue)) (key : String) : Option JsonValue :=
  match fields with
  | [] => none
  | (k, v) :: rest => if k = key then some v else lookupField rest key

/-- Rust str::starts_with, modelled on the character sequence. -/
def strStartsWith (s p : String) : Bool :=
  p.data.isPrefixOf s.data

/-- vkapi.rs:229-234, the Success variant of the untagged enum Response:
the payload must be a map with a response field whose value decodes as T;
other fields are ignored (derived struct deserialization without
deny_unknown_fields). decT is the deserializer of the caller-chosen T. -/
def decodeSuccessShape {α : Type} (decT : JsonValue → Option α) : JsonValue → Option α
  | .obj fields => (lookupField fields "response").bind decT
  | _ => none

/-- serde deserialization of an i16: a number within the i16 range. -/
def decodeI16 : JsonValue → Option Int
  | .num n => if -32768 ≤ n ∧ n ≤ 32767 then some n else none
  | _ => none

/-- serde deserialization of a String: a string payload. -/
def decodeString : JsonValue → Option String
  | .str s => some s
  | _ => none

/-- vkapi.rs:238-242, derived deserialization of VkError: a map with an
error_code field (i16) and an error_msg field (String); other fields are
ignored. -/
def decodeVkError : JsonValue → Option VkError
  | .obj fields =>
    match (lookupField fields "error_code").bind decodeI16,
          (lookupField fields "error_msg").bind decodeString with
    | some c, some m => some ⟨c, m⟩
    | _, _ => none
  | _ => none

/-- vkapi.rs:229-234, the Error variant of the untagged enum Response: the
payload must be a map with an error field decoding as VkError. -/
def decodeErrorShape : JsonValue → Option VkError
  | .obj fields => (lookupField fields "error").bind decodeVkError
  | _ => none

/-- vkapi.rs:229-234. The response envelope. -/
inductive Response (α : Type) where
  | Success (response : α)
  | Error (error : VkError)
deriving Repr

/-- vkapi.rs:229-234, serde untagged deserialization of Response: the
variants are tried in declaration order (Success first) and the first one
that decodes wins; if neither decodes, deserialization fails. -/
def decodeResponse {α : Type} (decT : JsonValue → Option α) (j : JsonValue) :
    Option (Response α) :=
  match decodeSuccessShape decT j with
  | some t => some (.Success t)
  | none =>
    match decodeErrorShape j with
    | some e => some (.Error e)
    | none => none

/-- vkapi.rs:151-157, the tail of send_request_with_version: decode the
body into Response<T> and match — Success unwraps the value, Error becomes
VkApiError::Vk. A body matching neither variant is a serde parse failure,
surfaced as ResponseDeserialize::Json on the JSON path. -/
def resolveCall {α : Type} (decT : JsonValue → Option α) (j : JsonValue) :
    Except VkApiError α :=
  match decodeResponse decT j with
  | some (.Success t) => Except.ok t
  | some (.Error e) => Except.error (.Vk e)
  | none =>
    Except.error (.ResponseDeserialize
      (.Json "data did not match any variant of untagged enum Response"))

/-- Whether the success shape of the envelope matches the payload. -/
def matchesSuccessShape {α : Type} (decT : JsonValue → Option α) (j : JsonValue) : Bool :=
  (decodeSuccessShape decT j).isSome

/-- Whether the error shape of the envelope matches the payload. -/
def matchesErrorShape (j : JsonValue) : Bool :=
  (decodeErrorShape j).isSome

/-- The body from §8 of the spec:
error error_code 5, error_msg "access denied". -/
def accessDeniedBody : JsonValue :=
  .obj [("error", .obj [("error_code", .num 5), ("error_msg", .str "access denied")])]

/-- A payload carrying both a response field and an error field, the
ambiguous case of the envelope. -/
def ambiguousBody : JsonValue :=
  .obj [("response", .num 1),
        ("error", .obj [("error_code", .num 5), ("error_msg", .str "x")])]

/-- inner.rs:26-35. The reader returned by uncompress, tagged by the codec
wrapped around the body. -/
inductive CompressReader (β : Type) where
  | Zstd (decoder : β)
  | Gzip (inner : β)
  | Skip (inner : β)
deriving Repr, DecidableEq

/-- inner.rs:82-97. uncompress matches the declared Content-Encoding
value: "zstd" constructs a zstd Decoder (whose construction reads the
frame header and may fail, mapped to an IO error), "gzip" wraps a
GzDecoder (construction never fails), and any other value — or an absent
header — is a passthrough over the raw body. zstd decoder construction is
abstracted by zstdNew, with none modelling the construction failure. Both
compression features are taken as compiled in. -/
def uncompress {β : Type} (zstdNew : β → Option β) (encode : Option String) (body : β) :
    Except VkApiError (CompressReader β) :=
  match encode with
  | some v =>
    if v = "zstd" then
      match zstdNew body with
      | some d => Except.ok (.Zstd d)
      | none => Except.error (.Io "zstd frame header")
    else if v = "gzip" then Except.ok (.Gzip body)
    else Except.ok (.Skip body)
  | none => Except.ok (.Skip body)

/-- The Content-Encoding header names no compiled-in codec: absent, or any
value other than "zstd" and "gzip". -/
def declaresNoKnownCodec : Option String → Bool
  | none => true
  | some v => !(v == "zstd") && !(v == "gzip")

/-- HeaderValue::to_str of the http crate: succeeds exactly when every
byte is visible ASCII (0x20 to 0x7E) or horizontal tab. -/
def headerToStr (bytes : List Nat) : Option String :=
  if bytes.all (fun b => b == 9 || (decide (32 ≤ b) && decide (b < 127))) then
    some (String.mk (bytes.map Char.ofNat))
  else none

/-- inner.rs:99-116. decode reads the declared Content-Type (to_str
failures collapse to none), dispatches to the JSON parser when the value
starts with "application/json" and to the MsgPack parser when it starts
with "application/x-msgpack", and fails with BadEncoding otherwise. The
cfg-gated arms are modelled by availability flags; the parsers are
abstracted by jsonDec and msgpackDec with string-modelled errors. -/
def decode {α β : Type} (jsonAvail msgpackAvail : Bool)
    (jsonDec msgpackDec : β → Except String α)
    (format : Option (List Nat)) (body : β) : Except VkApiError α :=
  match format.bind headerToStr with
  | some v =>
    if jsonAvail && strStartsWith v "application/json" then
      match jsonDec body with
      | .ok t => Except.ok t
      | .error e => Except.error (.ResponseDeserialize (.Json e))
    else if msgpackAvail && strStartsWith v "application/x-msgpack" then
      match msgpackDec body with
      | .ok t => Except.ok t
      | .error e => Except.error (.ResponseDeserialize (.MsgPack e))
    else Except.error (.ResponseDeserialize .BadEncoding)
  | none => Except.error (.ResponseDeserialize .BadEncoding)

/-- The declared Content-Type selects an available parser: it is readable
as a string and starts with the prefix of a decoder whose feature is
available. -/
def recognizedContentType (jsonAvail msgpackAvail : Bool)
    (format : Option (List Nat)) : Bool :=
  match format.bind headerToStr with
  | some v =>
    (jsonAvail && strStartsWith v "application/json") ||
    (msgpackAvail && strStartsWith v "application/x-msgpack")
  | none => false

/-- The bytes of the header value "text/html". -/
def textHtmlHeader : List Nat := [116, 101, 120, 116, 47, 104, 116, 109, 108]

/-- longpoll.rs:266-295 and 335-342. The DeserializeUsizeOrString visitor
driven through deserialize_any: a nonnegative wire integer reaches
visit_u64 and is rendered in decimal, a wire string reaches
visit_str/visit_string and is returned unchanged, and every other payload
is rejected. -/
def deserialize_usize_or_string : JsonValue → Option String
  | .num n => if 0 ≤ n then some (toString n.toNat) else none
  | .str s => some s
  | _ => none

/-- A struct field ts decoded with deserialize_usize_or_string, as in the
Ts test struct of longpoll.rs:358-362 and the ts fields of
LongPollRequest and LongPollQueryParams. -/
def decodeTsField : JsonValue → Option String
  | .obj fields => (lookupField fields "ts").bind deserialize_usize_or_string
  | _ => none

/-- The observable pieces of the HTTP request built by
subscribe_once_with_client. -/
structure BuiltLongPollRequest where
  method : String
  url : String
  acceptEncoding : String
  accept : String
deriving Repr, DecidableEq

/-- longpoll.rs:107-144, the request construction of
subscribe_once_with_client. params stands for the serde_urlencoded
rendering of LongPollQueryParams (key, ts, wait and the flattened
additional params). The url prepends "https://" unless the server string
starts with "http", and always inserts act=a_check ahead of params. The
cfg_if blocks at lines 122-136 test the key features (the key cargo
defines is feature), so the predicates are false in every build, the else
branches always apply, and the headers are the constants "identity" and
"text/*". -/
def subscribe_once_request (server : String) (params : String) : BuiltLongPollRequest :=
  { method := "GET"
    url :=
      if strStartsWith server "http" then server ++ "?act=a_check&" ++ params
      else "https://" ++ server ++ "?act=a_check&" ++ params
    acceptEncoding := "identity"
    accept := "text/*" }

/-- structs.rs:26-45, List::to_string: the first item rendered with
ToString seeds the result, and every further item appends a comma and its
rendering; an empty iterable yields the empty string. -/
def listToString {α : Type} (toStr : α → String) : List α → String
  | [] => ""
  | i :: rest => rest.foldl (fun result x => result ++ "," ++ toStr x) (toStr i)

/-- structs.rs:13-24, Serialize for List: a single string scalar holding
to_string of the list. -/
def listSerialize {α : Type} (toStr : α → String) (items : List α) : JsonValue :=
  .str (listToString toStr items)

/-- Modelled from the claim wording for comparison: the item renderings
joined by single commas with no leading or trailing separator. -/
def joinedByCommas {α : Type} (toStr : α → String) : List α → String
  | [] => ""
  | [x] => toStr x
  | x :: y :: rest => toStr x ++ "," ++ joinedByCommas toStr (y :: rest)

/-- The comma-prefixed rendering of a tail of items, the shape
accumulated by the fold of listToString. -/
def commaTail {α : Type} (toStr : α → String) : List α → String
  | [] => ""
  | x :: rest => "," ++ toStr x ++ commaTail toStr rest

/-- A long-poll environment answering every tick with the same successful
chunk: replacement ts "6" and updates 1, 2. -/
def successOracle : Nat → String → Except VkApiError (LongPollSuccess Nat) :=
  fun _ _ => Except.ok ⟨"6", [1, 2]⟩

/-- A long-poll environment whose first tick is a recoverable error
carrying replacement ts "7" and whose later ticks are empty chunks. -/
def recoverableOracle : Nat → String → Except VkApiError (LongPollSuccess Nat) :=
  fun n _ =>
    if n = 0 then Except.error (.LongPoll ⟨1, some "7", none, none⟩)
    else Except.ok ⟨"8", []⟩

/-- A long-poll environment answering every tick with a fatal decode
error. -/
def fatalOracle : Nat → String → Except VkApiError (LongPollSuccess Nat) :=
  fun _ _ => Except.error (.ResponseDeserialize .BadEncoding)

end Vkclient

namespace Vkclient

theorem classifyTick_okChunk {I : Type} (ts : String) (items : List I) :
    classifyTick (Except.ok ⟨ts, items⟩) = TickClass.updates ts items := rfl

theorem classifyTick_recoverable {I : Type} (le : LongPollError) (t : String)
    (h : le.ts = some t) :
    classifyTick (I := I) (Except.error (VkApiError.LongPoll le)) =
      TickClass.recoverable t := by
  obtain ⟨f, ts?, mn, mx⟩ := le
  simp only at h
  subst h
  rfl

theorem classifyTick_fatal {I : Type} (e : VkApiError)
    (h : e.isRecoverableLongPoll = false) :
    classifyTick (I := I) (Except.error e) = TickClass.fatal e := by
  cases e with
  | LongPoll le =>
    obtain ⟨f, ts?, mn, mx⟩ := le
    cases ts? with
    | none => rfl
    | some t => simp [VkApiError.isRecoverableLongPoll] at h
  | Request e => rfl
  | RequestSerialize e => rfl
  | ResponseDeserialize e => rfl
  | Vk e => rfl
  | Io e => rfl
  | Http e => rfl

theorem classifyTick_fatal_not_recoverable {I : Type}
    (x : Except VkApiError (LongPollSuccess I)) (e : VkApiError)
    (h : classifyTick x = TickClass.fatal e) :
    e.isRecoverableLongPoll = false := by
  cases x with
  | ok s => simp [classifyTick] at h
  | error e2 =>
    cases e2 with
    | LongPoll le =>
      obtain ⟨f, ts?, mn, mx⟩ := le
      cases ts? with
      | none =>
        simp only [classifyTick] at h
        cases h
        rfl
      | some t => simp [classifyTick] at h
    | Request e2 => simp only [classifyTick] at h; cases h; rfl
    | RequestSerialize e2 => simp only [classifyTick] at h; cases h; rfl
    | ResponseDeserialize e2 => simp only [classifyTick] at h; cases h; rfl
    | Vk e2 => simp only [classifyTick] at h; cases h; rfl
    | Io e2 => simp only [classifyTick] at h; cases h; rfl
    | Http e2 => simp only [classifyTick] at h; cases h; rfl

theorem subscribeRun_no_recoverable_error {I : Type}
    (oracle : Nat → String → Except VkApiError (LongPollSuccess I)) :
    ∀ (fuel n : Nat) (ts : String) (le : LongPollError),
      Except.error (VkApiError.LongPoll le) ∈ subscribeRun oracle fuel n ts →
      le.ts = none := by
  intro fuel
  induction fuel with
  | zero => intro n ts le h; simp [subscribeRun] at h
  | succ fuel ih =>
    intro n ts le h
    rw [subscribeRun] at h
    cases hc : classifyTick (oracle n ts) with
    | recoverable ts2 =>
      rw [hc] at h
      exact ih (n + 1) ts2 le h
    | updates ts2 items =>
      rw [hc] at h
      rcases List.mem_append.1 h with h1 | h2
      · rcases List.mem_map.1 h1 with ⟨x, _, hx⟩
        cases hx
      · exact ih (n + 1) ts2 le h2
    | fatal e =>
      rw [hc] at h
      rcases List.mem_singleton.1 h with h1
      have hrec := classifyTick_fatal_not_recoverable (oracle n ts) e hc
      have he : e = VkApiError.LongPoll le := by
        cases h1
        rfl
      subst he
      cases hts : le.ts with
      | none => rfl
      | some t => simp [VkApiError.isRecoverableLongPoll, hts] at hrec


/-- C1: for every long-poll tick whose response decodes to the success
variant, the subscribe stream replaces the request ts with the returned
ts, emits each update as an individual Ok item in exactly the
server-returned order ahead of everything later ticks produce (so items
across ticks appear in tick order), issues exactly one poll for the tick,
and continues with the next poll from the ts derived from this tick. -/
theorem successful_tick_emits_updates_in_order {I : Type}
    (oracle : Nat → String → Except VkApiError (LongPollSuccess I))
    (fuel n : Nat) (ts ts2 : String) (updates : List I)
    (h : oracle n ts = Except.ok ⟨ts2, updates⟩) :
    subscribeRun oracle (fuel + 1) n ts =
      updates.map Except.ok ++ subscribeRun oracle fuel (n + 1) ts2 ∧
    subscribePolls oracle (fuel + 1) n ts = 1 + subscribePolls oracle fuel (n + 1) ts2 := by
  constructor
  · simp only [subscribeRun, h, classifyTick_okChunk]
  · simp only [subscribePolls, h, classifyTick_okChunk]

/-- C1 witness: the theorem applied to successOracle at tick 0 with
cursor "5" and one unit of fuel. -/
theorem successful_tick_emits_updates_in_order_witness :
    successOracle 0 "5" = Except.ok ⟨"6", [1, 2]⟩ ∧
    (subscribeRun successOracle 1 0 "5" =
      [1, 2].map Except.ok ++ subscribeRun successOracle 0 1 "6" ∧
    subscribePolls successOracle 1 0 "5" = 1 + subscribePolls successOracle 0 1 "6") :=
  ⟨rfl, successful_tick_emits_updates_in_order successOracle 0 0 "5" "6" [1, 2] rfl⟩

/-- C2: for every long-poll tick decoding to a long-poll error that
carries a replacement ts, the subscribe stream replaces the request ts
wholesale, emits zero items for the tick, and continues polling; moreover
on any run whatsoever, a recoverable long-poll error (one carrying a ts)
is never emitted to the stream consumer. -/
theorem recoverable_tick_replaces_ts_and_emits_nothing {I : Type}
    (oracle : Nat → String → Except VkApiError (LongPollSuccess I))
    (fuel n : Nat) (ts ts2 : String) (le : LongPollError)
    (h : oracle n ts = Except.error (VkApiError.LongPoll le)) (hts : le.ts = some ts2) :
    subscribeRun oracle (fuel + 1) n ts = subscribeRun oracle fuel (n + 1) ts2 ∧
    subscribePolls oracle (fuel + 1) n ts = 1 + subscribePolls oracle fuel (n + 1) ts2 ∧
    ∀ (fuel2 n2 : Nat) (ts3 : String) (le2 : LongPollError),
      Except.error (VkApiError.LongPoll le2) ∈ subscribeRun oracle fuel2 n2 ts3 →
      le2.ts = none := by
  refine ⟨?_, ?_, subscribeRun_no_recoverable_error oracle⟩
  · simp only [subscribeRun, h, classifyTick_recoverable le ts2 hts]
  · simp only [subscribePolls, h, classifyTick_recoverable le ts2 hts]

/-- C2 witness: the theorem applied to recoverableOracle at tick 0 with
cursor "5" and one unit of fuel. -/
theorem recoverable_tick_replaces_ts_and_emits_nothing_witness :
    recoverableOracle 0 "5" =
      Except.error (VkApiError.LongPoll ⟨1, some "7", none, none⟩) ∧
    (⟨1, some "7", none, none⟩ : LongPollError).ts = some "7" ∧
    subscribeRun recoverableOracle 1 0 "5" = subscribeRun recoverableOracle 0 1 "7" ∧
    subscribePolls recoverableOracle 1 0 "5" = 1 + subscribePolls recoverableOracle 0 1 "7" :=
  ⟨rfl, rfl,
    (recoverable_tick_replaces_ts_and_emits_nothing recoverableOracle 0 0 "5" "7"
      ⟨1, some "7", none, none⟩ rfl rfl).1,
    (recoverable_tick_replaces_ts_and_emits_nothing recoverableOracle 0 0 "5" "7"
      ⟨1, some "7", none, none⟩ rfl rfl).2.1⟩

/-- C3: for every long-poll tick whose outcome is an error that is not the
recoverable long-poll kind — a long-poll error without a replacement ts,
or any transport, HTTP, request-serialize or response-decode error — the
stream yields that error exactly once as its only and final item, and
however much more the consumer pulls, no further poll is issued and
nothing more is yielded. -/
theorem fatal_tick_terminates_stream {I : Type}
    (oracle : Nat → String → Except VkApiError (LongPollSuccess I))
    (fuel n : Nat) (ts : String) (e : VkApiError)
    (h : oracle n ts = Except.error e) (hfatal : e.isRecoverableLongPoll = false) :
    subscribeRun oracle (fuel + 1) n ts = [Except.error e] ∧
    subscribePolls oracle (fuel + 1) n ts = 1 := by
  constructor
  · simp only [subscribeRun, h, classifyTick_fatal e hfatal]
  · simp only [subscribePolls, h, classifyTick_fatal e hfatal]

/-- C3 witness: the theorem applied to fatalOracle at tick 0 with cursor
"5" and a large fuel. -/
theorem fatal_tick_terminates_stream_witness :
    fatalOracle 0 "5" = Except.error (VkApiError.ResponseDeserialize ResponseDeserialize.BadEncoding) ∧
    (VkApiError.ResponseDeserialize ResponseDeserialize.BadEncoding).isRecoverableLongPoll = false ∧
    (subscribeRun fatalOracle 42 0 "5" =
      [Except.error (VkApiError.ResponseDeserialize ResponseDeserialize.BadEncoding)] ∧
    subscribePolls fatalOracle 42 0 "5" = 1) :=
  ⟨rfl, rfl,
    fatal_tick_terminates_stream fatalOracle 41 0 "5"
      (VkApiError.ResponseDeserialize ResponseDeserialize.BadEncoding) rfl rfl⟩

/-- C4 counterexample: ambiguousBody carries both a response field and an
error field — it matches both envelope shapes — yet untagged decoding
returns the Success variant and the call resolves to Ok, not a decode
error, so the claim fails at this input. -/
theorem envelope_ambiguous_payload_counterexample :
    matchesSuccessShape decodeI16 ambiguousBody = true ∧
    matchesErrorShape ambiguousBody = true ∧
    decodeResponse decodeI16 ambiguousBody = some (Response.Success 1) ∧
    resolveCall decodeI16 ambiguousBody = Except.ok 1 :=
  ⟨rfl, rfl, rfl, rfl⟩

/-- C4 amended: a payload matching neither shape is a decode error, never
coerced into either variant; but the variants are tried in declaration
order, so a payload matching the success shape decodes to the success
variant even when it also matches the error shape, and only a payload
that fails the success shape and matches the error shape decodes to the
error variant. -/
theorem envelope_resolved_in_declaration_order {α : Type}
    (decT : JsonValue → Option α) (j : JsonValue) :
    (decodeSuccessShape decT j = none → decodeErrorShape j = none →
      decodeResponse decT j = none) ∧
    (∀ t, decodeSuccessShape decT j = some t →
      decodeResponse decT j = some (Response.Success t)) ∧
    (∀ e, decodeSuccessShape decT j = none → decodeErrorShape j = some e →
      decodeResponse decT j = some (Response.Error e)) := by
  refine ⟨fun h1 h2 => ?_, fun t h1 => ?_, fun e h1 h2 => ?_⟩ <;>
    simp [decodeResponse, h1]
  · rw [h2]
  · rw [h2]

/-- C4 witness: the amended theorem applied to a payload matching neither
shape and to ambiguousBody, which matches both. -/
theorem envelope_resolved_in_declaration_order_witness :
    (decodeSuccessShape decodeI16 (JsonValue.str "zzz") = none ∧
     decodeErrorShape (JsonValue.str "zzz") = none ∧
     decodeResponse decodeI16 (JsonValue.str "zzz") = none) ∧
    (decodeSuccessShape decodeI16 ambiguousBody = some 1 ∧
     decodeResponse decodeI16 ambiguousBody = some (Response.Success 1)) :=
  ⟨⟨rfl, rfl,
    (envelope_resolved_in_declaration_order decodeI16 (JsonValue.str "zzz")).1 rfl rfl⟩,
   ⟨rfl,
    (envelope_resolved_in_declaration_order decodeI16 ambiguousBody).2.1 1 rfl⟩⟩

/-- C5: the body holding error_code 5 and error_msg "access denied"
decodes through the plain-call pipeline to the Error variant with code 5
and message "access denied", resolved as the distinct Vk error variant;
the success shape does not match this body, whatever deserializer the
caller supplies for T, so the success path is never taken. -/
theorem business_error_body_resolves_to_vk_error {α : Type}
    (decT : JsonValue → Option α) :
    decodeSuccessShape decT accessDeniedBody = none ∧
    decodeResponse decT accessDeniedBody = some (Response.Error ⟨5, "access denied"⟩) ∧
    resolveCall decT accessDeniedBody =
      Except.error (VkApiError.Vk ⟨5, "access denied"⟩) :=
  ⟨rfl, rfl, rfl⟩

/-- C6: when the declared Content-Encoding is absent or holds any value
other than the compiled-in codec names "zstd" and "gzip", uncompress
returns the passthrough reader over the raw body and never errors; and
any error uncompress ever returns requires a declared "zstd" encoding
whose decoder construction failed on the byte stream. -/
theorem uncompress_passthrough_on_unknown_encoding {β : Type}
    (zstdNew : β → Option β) (encode : Option String) (body : β)
    (h : declaresNoKnownCodec encode = true) :
    uncompress zstdNew encode body = Except.ok (CompressReader.Skip body) ∧
    ∀ (zN : β → Option β) (enc : Option String) (b : β) (e : VkApiError),
      uncompress zN enc b = Except.error e →
      enc = some "zstd" ∧ zN b = none ∧ e = VkApiError.Io "zstd frame header" := by
  constructor
  · cases encode with
    | none => rfl
    | some v =>
      simp only [declaresNoKnownCodec, Bool.and_eq_true, Bool.not_eq_true',
        beq_eq_false_iff_ne, ne_eq] at h
      simp [uncompress, h.1, h.2]
  · intro zN enc b e hu
    cases enc with
    | none => simp [uncompress] at hu
    | some v =>
      by_cases hz : v = "zstd"
      · subst hz
        cases hzn : zN b with
        | some d => simp [uncompress, hzn] at hu
        | none =>
          simp only [uncompress, hzn, if_pos] at hu
          exact ⟨rfl, rfl, by
            cases hu
            rfl⟩
      · by_cases hg : v = "gzip"
        · subst hg
          simp [uncompress, hz] at hu
        · simp [uncompress, hz, hg] at hu

/-- C6 witness: the theorem applied to the declared encoding "identity"
over a concrete byte body. -/
theorem uncompress_passthrough_on_unknown_encoding_witness :
    declaresNoKnownCodec (some "identity") = true ∧
    uncompress (fun b : List Nat => some b) (some "identity") [1, 2] =
      Except.ok (CompressReader.Skip [1, 2]) :=
  ⟨rfl,
    (uncompress_passthrough_on_unknown_encoding (fun b : List Nat => some b)
      (some "identity") [1, 2] rfl).1⟩

/-- C7: when the declared Content-Type is absent, unreadable as a string,
or does not start with the prefix of an available parser, decode fails
with the distinct BadEncoding kind — it never falls through to a default
parser and never returns a value — whatever the parsers and body are. -/
theorem decode_unrecognized_content_type_fails_bad_encoding {α β : Type}
    (jsonAvail msgpackAvail : Bool) (jsonDec msgpackDec : β → Except String α)
    (format : Option (List Nat)) (body : β)
    (h : recognizedContentType jsonAvail msgpackAvail format = false) :
    decode jsonAvail msgpackAvail jsonDec msgpackDec format body =
      Except.error (VkApiError.ResponseDeserialize ResponseDeserialize.BadEncoding) := by
  unfold recognizedContentType at h
  unfold decode
  cases hv : format.bind headerToStr with
  | none => rfl
  | some v =>
    rw [hv] at h
    simp only [Bool.or_eq_false_iff] at h
    simp [h.1, h.2]

/-- C7 witness: the theorem applied to the Content-Type "text/html" with
both parsers available and total. -/
theorem decode_unrecognized_content_type_fails_bad_encoding_witness :
    recognizedContentType true true (some textHtmlHeader) = false ∧
    decode true true (fun _ : Nat => Except.ok (0 : Nat)) (fun _ => Except.ok 0)
      (some textHtmlHeader) 0 =
      Except.error (VkApiError.ResponseDeserialize ResponseDeserialize.BadEncoding) :=
  ⟨rfl,
    decode_unrecognized_content_type_fails_bad_encoding true true
      (fun _ : Nat => Except.ok (0 : Nat)) (fun _ => Except.ok 0)
      (some textHtmlHeader) 0 rfl⟩

/-- C8: for every unsigned integer n, a ts field holding the native
integer n and one holding its decimal string form decode to the same
string cursor value; in particular a ts field 123 and a ts field "123"
both decode to "123". -/
theorem ts_integer_and_string_decode_identically (n : Nat) :
    deserialize_usize_or_string (JsonValue.num (Int.ofNat n)) = some (toString n) ∧
    deserialize_usize_or_string (JsonValue.str (toString n)) = some (toString n) ∧
    decodeTsField (JsonValue.obj [("ts", JsonValue.num 123)]) = some "123" ∧
    decodeTsField (JsonValue.obj [("ts", JsonValue.str "123")]) = some "123" := by
  refine ⟨?_, rfl, rfl, rfl⟩
  simp [deserialize_usize_or_string, Int.ofNat_nonneg, Int.toNat_ofNat]

/-- C9 evidence: every request built by subscribe_once_with_client is a
GET whose Accept-Encoding and Accept headers are the constants "identity"
and "text/*" — the gzip and json arms are unreachable in every build
because the cfg predicates test the misspelled key features — and the
query string of the built url carries act=a_check ahead of the key, ts,
wait and extra parameters, shown on a concrete server and parameter
rendering. -/
theorem longpoll_request_headers_and_url (server params : String) :
    (subscribe_once_request server params).method = "GET" ∧
    (subscribe_once_request server params).acceptEncoding = "identity" ∧
    (subscribe_once_request server params).accept = "text/*" ∧
    (subscribe_once_request "lp.vk.com" "key=k&ts=1&wait=25").url =
      "https://lp.vk.com?act=a_check&key=k&ts=1&wait=25" :=
  ⟨rfl, rfl, rfl, rfl⟩

theorem foldl_comma_eq_append_commaTail {α : Type} (toStr : α → String) :
    ∀ (rest : List α) (acc : String),
      rest.foldl (fun result x => result ++ "," ++ toStr x) acc =
        acc ++ commaTail toStr rest := by
  intro rest
  induction rest with
  | nil => intro acc; simp [commaTail, String.append_empty]
  | cons x xs ih =>
    intro acc
    rw [List.foldl_cons, ih]
    simp only [commaTail, String.append_assoc]

theorem joinedByCommas_cons_eq {α : Type} (toStr : α → String) :
    ∀ (xs : List α) (x : α),
      joinedByCommas toStr (x :: xs) = toStr x ++ commaTail toStr xs := by
  intro xs
  induction xs with
  | nil => intro x; simp [joinedByCommas, commaTail, String.append_empty]
  | cons y ys ih =>
    intro x
    simp only [joinedByCommas, commaTail, ih y, String.append_assoc]

/-- C10: List serialization produces a single string scalar equal to the
item renderings joined by single commas with no leading or trailing
separator, and the empty iterable serializes to the empty string. -/
theorem list_serializes_to_comma_joined_string {α : Type}
    (toStr : α → String) (items : List α) :
    listToString toStr items = joinedByCommas toStr items ∧
    listSerialize toStr items = JsonValue.str (joinedByCommas toStr items) ∧
    listToString toStr ([] : List α) = "" ∧
    listSerialize toStr ([] : List α) = JsonValue.str "" := by
  have hmain : listToString toStr items = joinedByCommas toStr items := by
    cases items with
    | nil => rfl
    | cons x rest =>
      simp only [listToString, foldl_comma_eq_append_commaTail,
        joinedByCommas_cons_eq]
  exact ⟨hmain, by rw [listSerialize, hmain], rfl, rfl⟩

end Vkclient
